import Mathlib

/-!
Shallow embedding of the client core of the ride-hailing app
(src/frontend/src/App.js, the richer driver/passenger variant).

State held by the App component is modelled as an explicit record
(AppState); each asynchronous handler becomes a pure function from the
pre-state and the network outcome (modelled as Except) to the post-state.
Timers for the notification slot are modelled separately as a timed event
semantics (NotifState / notifRun), since their behaviour is the subject of
a dedicated claim.
-/

/-- A geographic position, as produced by the geolocation callback
(position.coords.latitude / longitude). Coordinates are modelled as
rationals; the claims only move them around, no float arithmetic. -/
structure GeoPos where
  lat : Rat
  lng : Rat
deriving DecidableEq, Repr

/-- The fallback coordinate hard-coded in the geolocation error path and
the no-capability path: lat 24.7136, lng 46.6753 (Riyadh). -/
def riyadhDefault : GeoPos := { lat := 24.7136, lng := 46.6753 }

/-- A user profile as returned by the backend and stored in the user
state. user_type is the string passenger or driver, exactly as the JS
compares it with === against the literal driver. is_activated is falsy
(false) for passengers. -/
structure User where
  id : String
  name : String
  phone : String
  user_type : String
  is_activated : Bool
  car_registration_number : String
  operating_number : String
  taxi_office_name : String
  taxi_office_phone : String
deriving DecidableEq, Repr

/-- One entry of the nearby-taxi snapshot (GET /api/taxis/nearby). -/
structure Taxi where
  id : String
  driver_name : String
  latitude : Rat
  longitude : Rat
deriving DecidableEq, Repr

/-- The single notification slot, initialised with show false and empty
type and message strings. The source field names show and type are Lean
keywords, so they are rendered here as visible and kind. -/
structure Alert where
  visible : Bool
  kind : String
  message : String
deriving DecidableEq, Repr

/-- Customer-service reference data, initialised with empty phone and
message strings. -/
structure CustomerServiceInfo where
  phone : String
  message : String
deriving DecidableEq, Repr

/-- An HTTP request failure: either a response with a status code
(error.response.status) or a network-level error with no response
(error.response is undefined). -/
inductive HttpFailure where
  | status (code : Nat)
  | network
deriving DecidableEq, Repr

/-- The App component state relevant to the claims, plus the two pieces of
process-wide mutable state the handlers touch: the credential persisted
in localStorage under the token key, and the axios default Authorization
header applied to every outbound request. -/
structure AppState where
  user : Option User
  currentLocation : Option GeoPos
  nearbyTaxis : List Taxi
  alert : Alert
  customerServiceInfo : CustomerServiceInfo
  token : Option String
  authHeader : Option String
deriving DecidableEq, Repr

/-- The initial state of a fresh App mount with no persisted credential:
all useState initialisers from App.js. -/
def initialAppState : AppState :=
  { user := none
    currentLocation := none
    nearbyTaxis := []
    alert := { visible := false, kind := "", message := "" }
    customerServiceInfo := { phone := "", message := "" }
    token := none
    authHeader := none }

/-- showAlert(type, message): sets the alert slot to visible with the given
kind and message. The 5-second dismissal setTimeout it also starts is
modelled in the timed notification semantics below (showAlertTimed);
at the AppState level only the slot content matters. -/
def showAlert (ty msg : String) (s : AppState) : AppState :=
  { s with alert := { visible := true, kind := ty, message := msg } }

/-- fetchUserProfile: GET /api/me. On success the profile is stored
via setUser; on any failure the persisted token is removed from
localStorage and the authorization header is deleted. No alert is posted
on either path. -/
def fetchUserProfile (s : AppState) (resp : Except HttpFailure User) : AppState :=
  match resp with
  | .ok u => { s with user := some u }
  | .error _ => { s with token := none, authHeader := none }

/-- The startup restore effect: if a persisted token exists, attach it as
the bearer authorization header and attempt fetchUserProfile; otherwise do
nothing. -/
def restoreSession (s : AppState) (resp : Except HttpFailure User) : AppState :=
  match s.token with
  | none => s
  | some tok => fetchUserProfile { s with authHeader := some ("Bearer " ++ tok) } resp

/-- fetchCustomerServiceInfo: GET /api/customer-service-info. On success
the info is stored; on failure the error is only logged (console.error),
nothing else changes and no alert is posted. -/
def fetchCustomerServiceInfo (s : AppState)
    (resp : Except HttpFailure CustomerServiceInfo) : AppState :=
  match resp with
  | .ok info => { s with customerServiceInfo := info }
  | .error _ => s

/-- fetchNearbyTaxis: returns immediately when no position is known.
Otherwise GET /api/taxis/nearby: a successful response replaces the whole
list via setNearbyTaxis; a failure is only logged and the previous list
is kept. -/
def fetchNearbyTaxis (s : AppState) (resp : Except HttpFailure (List Taxi)) : AppState :=
  match s.currentLocation with
  | none => s
  | some _ =>
    match resp with
    | .ok l => { s with nearbyTaxis := l }
    | .error _ => s

/-- handleLogout: removes the persisted credential, deletes the
authorization header, clears the user and empties the nearby-taxi list. -/
def handleLogout (s : AppState) : AppState :=
  { s with token := none, authHeader := none, user := none, nearbyTaxis := [] }

/-- The outcome of one driver location report request. -/
inductive LocationReportResult where
  | ok
  | fail (e : HttpFailure)
deriving DecidableEq, Repr

/-- The guard at the top of handleLocationUpdate: it returns early unless
a user exists, its user_type equals driver, a position is known and
is_activated holds. -/
def locationReporterGuard (s : AppState) : Bool :=
  match s.user with
  | none => false
  | some u => u.user_type == "driver" && s.currentLocation.isSome && u.is_activated

/-- The error message shown when a location report gets a 403
(activation expired). -/
def activationLapsedMessage : String := "انتهت صلاحية التفعيل. يرجى تجديد الاشتراك."

/-- Result of one handleLocationUpdate call: whether the POST
/api/driver/location request was actually issued, and the post-state. -/
structure LocUpdateOutcome where
  reportSent : Bool
  state : AppState
deriving DecidableEq, Repr

/-- handleLocationUpdate: guarded by locationReporterGuard; when the guard
passes, the current position is POSTed to /api/driver/location. On failure
the error is logged and, only when the response status is 403, an error
alert is shown. The user profile is never modified here; a network error
without a response carries no status and shows no alert. -/
def handleLocationUpdate (s : AppState) (resp : LocationReportResult) : LocUpdateOutcome :=
  if locationReporterGuard s then
    match resp with
    | .ok => { reportSent := true, state := s }
    | .fail e =>
      if e = HttpFailure.status 403 then
        { reportSent := true, state := showAlert "error" activationLapsedMessage s }
      else
        { reportSent := true, state := s }
  else
    { reportSent := false, state := s }

/-- The condition of the driver location-reporter effect: a user exists,
its user_type equals driver, a position is known and is_activated holds.
When it holds the effect reports immediately and then every 60 seconds;
the returned cleanup cancels the interval when user or currentLocation
change. -/
def locationReporterEffectActive (s : AppState) : Bool :=
  match s.user with
  | none => false
  | some u => u.user_type == "driver" && s.currentLocation.isSome && u.is_activated

/-- The ride-request form state. The JS initialiser has empty pickup and
destination addresses, passenger_count 1 and has_luggage false;
passenger_count is subsequently always the target value of the select, a
string, and parseInt treats the initial number 1 and the one-character
digit string identically, so it is modelled as that string here. -/
structure RideForm where
  pickup_address : String
  destination_address : String
  passenger_count : String
  has_luggage : Bool
deriving DecidableEq, Repr

/-- The initial value of the rideRequest useState (and the value the form
is reset to after a successful submission). -/
def initialRideForm : RideForm :=
  { pickup_address := "", destination_address := "", passenger_count := "1"
    has_luggage := false }

/-- The option values offered by the passenger-count select element. -/
def passengerCountOptions : List String := ["1", "2", "3", "4"]

/-- The form states reachable through the UI: the initial state, the four
input onChange handlers (the passenger-count select can only deliver one
of its option values), and the post-success reset (which equals the
initial state, so it needs no extra constructor). -/
inductive ReachableRideForm : RideForm → Prop where
  | init : ReachableRideForm initialRideForm
  | setPickup (a : String) {f : RideForm} :
      ReachableRideForm f → ReachableRideForm { f with pickup_address := a }
  | setDest (a : String) {f : RideForm} :
      ReachableRideForm f → ReachableRideForm { f with destination_address := a }
  | setCount (c : String) {f : RideForm} :
      c ∈ passengerCountOptions →
      ReachableRideForm f → ReachableRideForm { f with passenger_count := c }
  | setLuggage (b : Bool) {f : RideForm} :
      ReachableRideForm f → ReachableRideForm { f with has_luggage := b }

/-- The leading decimal digits of a character list. -/
def takeDigits : List Char → List Char
  | [] => []
  | c :: cs => if c.isDigit then c :: takeDigits cs else []

/-- Value of a list of decimal digits. -/
def digitsToNat (cs : List Char) : Nat :=
  cs.foldl (fun a c => 10 * a + (c.toNat - 48)) 0

/-- JS parseInt on a base-10 argument: skip leading spaces, optional sign,
then the longest prefix of decimal digits; NaN (none) when that prefix is
empty. -/
def jsParseInt (s : String) : Option Int :=
  match s.data.dropWhile (fun c => c = ' ') with
  | '-' :: rest =>
      let ds := takeDigits rest
      if ds = [] then none else some (-(digitsToNat ds : Int))
  | '+' :: rest =>
      let ds := takeDigits rest
      if ds = [] then none else some (digitsToNat ds : Int)
  | cs =>
      let ds := takeDigits cs
      if ds = [] then none else some (digitsToNat ds : Int)

/-- The string substituted for an empty pickup_address by the logical-or
fallback in handleRideRequest; it means: the current location. -/
def currentLocationSentinel : String := "الموقع الحالي"

/-- The body of POST /api/rides/request as built by handleRideRequest. -/
structure RidePayload where
  pickup_latitude : Rat
  pickup_longitude : Rat
  pickup_address : String
  destination_address : String
  passenger_count : Option Int
  has_luggage : Bool
deriving DecidableEq, Repr

/-- handleRideRequest: returns immediately when no position is known
(if (!currentLocation) return), otherwise builds and sends the payload:
pickup coordinates from the current position, pickup_address with the
|| sentinel substitution (the empty string is the only falsy string),
destination passed through, passenger_count through parseInt. -/
def handleRideRequest (f : RideForm) (loc : Option GeoPos) : Option RidePayload :=
  match loc with
  | none => none
  | some p =>
    some
      { pickup_latitude := p.lat
        pickup_longitude := p.lng
        pickup_address :=
          if f.pickup_address = "" then currentLocationSentinel else f.pickup_address
        destination_address := f.destination_address
        passenger_count := jsParseInt f.passenger_count
        has_luggage := f.has_luggage }

/-- The full submission pipeline of the ride form: the destination input
carries the HTML required attribute, so the browser blocks form submission
(onSubmit never fires) while destination_address is empty; otherwise the
submit handler handleRideRequest runs. -/
def submitRideForm (f : RideForm) (loc : Option GeoPos) : Option RidePayload :=
  if f.destination_address = "" then none
  else handleRideRequest f loc

/-- Outcome of the one-shot getCurrentPosition request: the success
callback with a position, or the error callback (denial, unavailability). -/
inductive GeoResult where
  | success (p : GeoPos)
  | failure
deriving DecidableEq, Repr

/-- What the startup geolocation effect produced: how many device position
requests it issued and the position it stored. -/
structure GeoInitOutcome where
  requestsIssued : Nat
  position : GeoPos
deriving DecidableEq, Repr

/-- The startup geolocation effect (runs once, empty dependency array):
if navigator.geolocation exists, issue exactly one getCurrentPosition
request; its success callback stores the device position, its error
callback stores the Riyadh default. Without the capability no request is
issued and the default is stored directly. No path issues a second
request. -/
def geolocationStartup (hasGeolocation : Bool) (result : GeoResult) : GeoInitOutcome :=
  if hasGeolocation then
    { requestsIssued := 1
      position :=
        match result with
        | .success p => p
        | .failure => riyadhDefault }
  else
    { requestsIssued := 0, position := riyadhDefault }

/-- State of the notification slot together with its timers: the current
time in milliseconds, the alert slot, and the fire times of every
setTimeout started by showAlert that has not yet fired. showAlert never
calls clearTimeout, so timers are only removed by firing. -/
structure NotifState where
  now : Nat
  alert : Alert
  pendingDismissals : List Nat
deriving DecidableEq, Repr

/-- The notification slot before any post. -/
def notifInit : NotifState :=
  { now := 0, alert := { visible := false, kind := "", message := "" }
    pendingDismissals := [] }

/-- showAlert with its timer: sets the alert slot and starts one dismissal
setTimeout due 5000 ms from now. The previously pending timeouts are kept
untouched: the source keeps no handle to them and never cancels them. -/
def showAlertTimed (ty msg : String) (s : NotifState) : NotifState :=
  { s with alert := { visible := true, kind := ty, message := msg }
           pendingDismissals := s.pendingDismissals ++ [s.now + 5000] }

/-- Advance the clock to time t, firing every pending timeout due by then.
Each fired callback calls setAlert with show false and empty type and
message, which hides whatever alert is currently displayed, so firing any
number of due timeouts leaves the slot hidden and empty. -/
def advanceTo (t : Nat) (s : NotifState) : NotifState :=
  let due := s.pendingDismissals.filter (fun d => d ≤ t)
  { now := t
    alert := if due.isEmpty then s.alert
             else { visible := false, kind := "", message := "" }
    pendingDismissals := s.pendingDismissals.filter (fun d => ¬ d ≤ t) }

/-- An event of the notification timeline: a showAlert call or the passage
of time to an absolute instant. -/
inductive NotifEvent where
  | post (ty msg : String)
  | tick (t : Nat)
deriving DecidableEq, Repr

/-- One step of the notification timeline. -/
def notifStep (s : NotifState) : NotifEvent → NotifState
  | .post ty msg => showAlertTimed ty msg s
  | .tick t => advanceTo t s

/-- Run a notification timeline from the initial state. -/
def notifRun (es : List NotifEvent) : NotifState :=
  es.foldl notifStep notifInit

/-- A driver profile with a live activation, used as a concrete input. -/
def activeDriverUser : User :=
  { id := "d1", name := "Driver One", phone := "0501234567", user_type := "driver"
    is_activated := true, car_registration_number := "CAR123", operating_number := "OP7"
    taxi_office_name := "Office", taxi_office_phone := "0500000000" }

/-- The same driver with is_activated set to false. -/
def inactiveDriverUser : User := { activeDriverUser with is_activated := false }

/-- An authenticated activated-driver session with a known position. -/
def activeDriverState : AppState :=
  { initialAppState with
      user := some activeDriverUser
      currentLocation := some riyadhDefault
      token := some "tok1"
      authHeader := some "Bearer tok1" }

/-- The same session but with the driver not activated. -/
def inactiveDriverState : AppState :=
  { activeDriverState with user := some inactiveDriverUser }

/-- A concrete nearby-taxi entry. -/
def taxiExample : Taxi :=
  { id := "t1", driver_name := "Driver One", latitude := 24.7, longitude := 46.68 }

/-- A passenger profile used as a concrete input. -/
def passengerUser : User :=
  { id := "p1", name := "Passenger One", phone := "0509999999", user_type := "passenger"
    is_activated := false, car_registration_number := "", operating_number := ""
    taxi_office_name := "", taxi_office_phone := "" }

/-- An authenticated passenger session holding one nearby taxi. -/
def passengerState : AppState :=
  { initialAppState with
      user := some passengerUser
      currentLocation := some riyadhDefault
      nearbyTaxis := [taxiExample]
      token := some "tok2"
      authHeader := some "Bearer tok2" }

/-- A fresh mount that still holds a persisted (expired) credential. -/
def staleTokenState : AppState :=
  { initialAppState with token := some "expired-tok" }

/-- A reachable ride form whose destination has been filled in. -/
def rideFormExample : RideForm :=
  { initialRideForm with destination_address := "مطار الرياض" }

/-- C1: the Location Reporter is active only when a session is
authenticated, the profile role is driver, is_activated is true and a
position is known: whenever any of these conditions fails (in particular
for every driver profile with is_activated false), handleLocationUpdate
sends no location report to the backend. -/
theorem locationReporter_inactive_never_sends
    (s : AppState) (resp : LocationReportResult) (u : User)
    (h : s.user = none ∨ s.currentLocation = none ∨
         (s.user = some u ∧ (u.user_type ≠ "driver" ∨ u.is_activated = false))) :
    (handleLocationUpdate s resp).reportSent = false := by
  have hg : locationReporterGuard s = false := by
    unfold locationReporterGuard
    rcases h with h | h | ⟨hu, hc⟩
    · simp [h]
    · cases hs : s.user with
      | none => rfl
      | some u' => simp [h]
    · rw [hu]
      rcases hc with hc | hc <;> simp [hc]
  simp [handleLocationUpdate, hg]

/-- Witness for C1: a non-activated driver with a known position never
sends a report. -/
theorem locationReporter_inactive_never_sends_witness :
    (inactiveDriverState.user = none ∨ inactiveDriverState.currentLocation = none ∨
      (inactiveDriverState.user = some inactiveDriverUser ∧
        (inactiveDriverUser.user_type ≠ "driver" ∨ inactiveDriverUser.is_activated = false))) ∧
    (handleLocationUpdate inactiveDriverState LocationReportResult.ok).reportSent = false :=
  ⟨Or.inr (Or.inr ⟨rfl, Or.inr rfl⟩),
   locationReporter_inactive_never_sends inactiveDriverState LocationReportResult.ok
     inactiveDriverUser (Or.inr (Or.inr ⟨rfl, Or.inr rfl⟩))⟩

/-- Counterexample to C2: after a 403 on a location report from an
activated driver state the stored profile is unchanged (is_activated is
still true), and the very next report attempt is sent anyway — the
activation predicate does not block further reports, contrary to the
claimed transition to a pending-activation state. -/
theorem locationReport403_no_transition_cex :
    (handleLocationUpdate activeDriverState
        (LocationReportResult.fail (HttpFailure.status 403))).state.user
      = some activeDriverUser ∧
    (handleLocationUpdate
        (handleLocationUpdate activeDriverState
          (LocationReportResult.fail (HttpFailure.status 403))).state
        LocationReportResult.ok).reportSent = true :=
  ⟨rfl, rfl⟩

/-- C2 as amended: when a driver location report returns 403 a user-facing
error notification is posted and the reporting loop is not cancelled, but
the client performs no state transition — the profile (and so the
activation predicate) is unchanged, and subsequent reports continue to be
sent. -/
theorem locationReport403_notifies_loop_persists
    (s : AppState) (h : locationReporterGuard s = true) :
    (handleLocationUpdate s (LocationReportResult.fail (HttpFailure.status 403))).reportSent
      = true ∧
    (handleLocationUpdate s (LocationReportResult.fail (HttpFailure.status 403))).state.alert
      = { visible := true, kind := "error", message := activationLapsedMessage } ∧
    (handleLocationUpdate s (LocationReportResult.fail (HttpFailure.status 403))).state.user
      = s.user ∧
    (handleLocationUpdate s (LocationReportResult.fail (HttpFailure.status 403))).state.currentLocation
      = s.currentLocation ∧
    ∀ resp, (handleLocationUpdate
        (handleLocationUpdate s (LocationReportResult.fail (HttpFailure.status 403))).state
        resp).reportSent = true := by
  have hstep : handleLocationUpdate s (LocationReportResult.fail (HttpFailure.status 403))
      = { reportSent := true, state := showAlert "error" activationLapsedMessage s } := by
    simp [handleLocationUpdate, h]
  refine ⟨by rw [hstep], by rw [hstep]; rfl, by rw [hstep]; rfl, by rw [hstep]; rfl, ?_⟩
  intro resp
  rw [hstep]
  have hg : locationReporterGuard (showAlert "error" activationLapsedMessage s)
      = locationReporterGuard s := rfl
  cases resp with
  | ok => simp [handleLocationUpdate, hg, h]
  | fail e =>
    by_cases he : e = HttpFailure.status 403 <;> simp [handleLocationUpdate, hg, h, he]

/-- Witness for the amended C2 at the concrete activated-driver state. -/
theorem locationReport403_notifies_loop_persists_witness :
    locationReporterGuard activeDriverState = true ∧
    ((handleLocationUpdate activeDriverState
        (LocationReportResult.fail (HttpFailure.status 403))).reportSent = true ∧
     (handleLocationUpdate activeDriverState
        (LocationReportResult.fail (HttpFailure.status 403))).state.alert
       = { visible := true, kind := "error", message := activationLapsedMessage } ∧
     (handleLocationUpdate activeDriverState
        (LocationReportResult.fail (HttpFailure.status 403))).state.user
       = activeDriverState.user ∧
     (handleLocationUpdate activeDriverState
        (LocationReportResult.fail (HttpFailure.status 403))).state.currentLocation
       = activeDriverState.currentLocation ∧
     ∀ resp, (handleLocationUpdate
         (handleLocationUpdate activeDriverState
           (LocationReportResult.fail (HttpFailure.status 403))).state
         resp).reportSent = true) :=
  ⟨rfl, locationReport403_notifies_loop_persists activeDriverState rfl⟩

/-- Counterexample to C3: post A at time 0, post B at time 3000. After the
second post the timer from the first post (due at 5000) is still pending —
it was not cancelled — and when the clock reaches 5000 that stale timer
dismisses B even though the timer started for B (due at 8000) has not
fired: B is hidden after being displayed for only 2 seconds. -/
theorem staleTimer_dismisses_later_notification_cex :
    (notifRun [NotifEvent.post "success" "A", NotifEvent.tick 3000,
               NotifEvent.post "error" "B"]).pendingDismissals = [5000, 8000] ∧
    (notifRun [NotifEvent.post "success" "A", NotifEvent.tick 3000,
               NotifEvent.post "error" "B", NotifEvent.tick 5000]).alert
      = { visible := false, kind := "", message := "" } ∧
    (notifRun [NotifEvent.post "success" "A", NotifEvent.tick 3000,
               NotifEvent.post "error" "B", NotifEvent.tick 5000]).pendingDismissals = [8000] :=
  ⟨rfl, rfl, rfl⟩

/-- C3 as amended: posting a notification replaces the displayed one and
starts a fresh 5-second dismissal timer, but the previously pending
dismissal timers are not cancelled — they stay pending after the post (so
a stale one can dismiss a later notification early, as the counterexample
shows). -/
theorem post_replaces_but_keeps_old_timers (es : List NotifEvent) (ty msg : String) :
    (notifRun (es ++ [NotifEvent.post ty msg])).alert
      = { visible := true, kind := ty, message := msg } ∧
    (notifRun (es ++ [NotifEvent.post ty msg])).pendingDismissals
      = (notifRun es).pendingDismissals ++ [(notifRun es).now + 5000] := by
  constructor <;> simp [notifRun, List.foldl_append, notifStep, showAlertTimed]

/-- C4: on a nearby-taxi poll tick with a known position, a successful
fetch fully replaces the held taxi list with the response snapshot, and a
failed fetch leaves the state — in particular the previously held list —
unchanged, so a failure never empties a non-empty list. -/
theorem nearbyTaxis_replace_on_ok_retain_on_fail
    (s : AppState) (l : List Taxi) (e : HttpFailure)
    (h : s.currentLocation.isSome = true) :
    (fetchNearbyTaxis s (Except.ok l)).nearbyTaxis = l ∧
    fetchNearbyTaxis s (Except.error e) = s ∧
    (s.nearbyTaxis ≠ [] → (fetchNearbyTaxis s (Except.error e)).nearbyTaxis ≠ []) := by
  rcases hs : s.currentLocation with _ | p
  · rw [hs] at h; simp at h
  · refine ⟨by simp [fetchNearbyTaxis, hs], by simp [fetchNearbyTaxis, hs], ?_⟩
    intro hne
    simp [fetchNearbyTaxis, hs, hne]

/-- Witness for C4 at a passenger session holding one taxi. -/
theorem nearbyTaxis_replace_on_ok_retain_on_fail_witness :
    passengerState.currentLocation.isSome = true ∧
    ((fetchNearbyTaxis passengerState (Except.ok [])).nearbyTaxis = [] ∧
     fetchNearbyTaxis passengerState (Except.error HttpFailure.network) = passengerState ∧
     (passengerState.nearbyTaxis ≠ [] →
       (fetchNearbyTaxis passengerState (Except.error HttpFailure.network)).nearbyTaxis ≠ [])) :=
  ⟨rfl, nearbyTaxis_replace_on_ok_retain_on_fail passengerState [] HttpFailure.network rfl⟩

/-- C5: when the startup restore holds a persisted credential and the
profile fetch fails (any error, notably 401), the credential is discarded,
the authorization header is removed, the session stays anonymous, and the
alert slot is untouched — no user-facing notification is posted. -/
theorem sessionRestore_failure_silent_reset
    (s : AppState) (tok : String) (e : HttpFailure)
    (htok : s.token = some tok) (huser : s.user = none) :
    (restoreSession s (Except.error e)).token = none ∧
    (restoreSession s (Except.error e)).authHeader = none ∧
    (restoreSession s (Except.error e)).user = none ∧
    (restoreSession s (Except.error e)).alert = s.alert := by
  simp [restoreSession, htok, fetchUserProfile, huser]

/-- Witness for C5 at a fresh mount holding an expired token, failing
with a 401. -/
theorem sessionRestore_failure_silent_reset_witness :
    staleTokenState.token = some "expired-tok" ∧ staleTokenState.user = none ∧
    ((restoreSession staleTokenState (Except.error (HttpFailure.status 401))).token = none ∧
     (restoreSession staleTokenState (Except.error (HttpFailure.status 401))).authHeader = none ∧
     (restoreSession staleTokenState (Except.error (HttpFailure.status 401))).user = none ∧
     (restoreSession staleTokenState (Except.error (HttpFailure.status 401))).alert
       = staleTokenState.alert) :=
  ⟨rfl, rfl,
   sessionRestore_failure_silent_reset staleTokenState "expired-tok"
     (HttpFailure.status 401) rfl rfl⟩

/-- The passenger-count field of every UI-reachable ride form is one of
the four select option values. -/
theorem reachable_passenger_count_mem {f : RideForm} (h : ReachableRideForm f) :
    f.passenger_count ∈ passengerCountOptions := by
  induction h with
  | init => simp [initialRideForm, passengerCountOptions]
  | setPickup a _ ih => exact ih
  | setDest a _ ih => exact ih
  | setCount c hc _ _ => exact hc
  | setLuggage b _ ih => exact ih

/-- C6: for every UI-reachable ride form, an empty destination_address is
rejected client-side (the required attribute blocks submission before any
request is sent), and every payload that is actually submitted carries a
non-empty destination and an integer passenger_count in the range 1 to 4
(the select offers no other value). -/
theorem rideRequest_client_validation
    (f : RideForm) (loc : Option GeoPos) (h : ReachableRideForm f) :
    (f.destination_address = "" → submitRideForm f loc = none) ∧
    (∀ payload, submitRideForm f loc = some payload →
      payload.destination_address ≠ "" ∧
      ∃ n : Int, payload.passenger_count = some n ∧ 1 ≤ n ∧ n ≤ 4) := by
  constructor
  · intro hd; simp [submitRideForm, hd]
  · intro payload hp
    by_cases hd : f.destination_address = ""
    · simp [submitRideForm, hd] at hp
    · cases hl : loc with
      | none => rw [hl] at hp; simp [submitRideForm, hd, handleRideRequest] at hp
      | some p =>
        rw [hl] at hp
        simp [submitRideForm, hd, handleRideRequest] at hp
        have hmem := reachable_passenger_count_mem h
        simp [passengerCountOptions] at hmem
        constructor
        · rw [← hp]; exact hd
        · rw [← hp]
          rcases hmem with hc | hc | hc | hc <;>
            exact ⟨_, by simp [hc]; rfl, by decide, by decide⟩

/-- Witness for C6 at a reachable form with a filled destination. -/
theorem rideRequest_client_validation_witness :
    ReachableRideForm rideFormExample ∧
    ((rideFormExample.destination_address = "" →
        submitRideForm rideFormExample (some riyadhDefault) = none) ∧
     (∀ payload, submitRideForm rideFormExample (some riyadhDefault) = some payload →
        payload.destination_address ≠ "" ∧
        ∃ n : Int, payload.passenger_count = some n ∧ 1 ≤ n ∧ n ≤ 4)) :=
  ⟨ReachableRideForm.setDest "مطار الرياض" ReachableRideForm.init,
   rideRequest_client_validation rideFormExample (some riyadhDefault)
     (ReachableRideForm.setDest "مطار الرياض" ReachableRideForm.init)⟩

/-- C7: every payload built by handleRideRequest with a known position
substitutes the current-location sentinel for an empty pickup_address
(the sentinel appears exactly once, as the whole field value), passes a
non-empty pickup_address through unchanged, carries the current position
as pickup coordinates, parses passenger_count with parseInt, and passes
destination and luggage flag through. -/
theorem rideRequest_payload_shape
    (f : RideForm) (p : GeoPos) (payload : RidePayload)
    (h : handleRideRequest f (some p) = some payload) :
    (f.pickup_address = "" → payload.pickup_address = currentLocationSentinel) ∧
    (f.pickup_address ≠ "" → payload.pickup_address = f.pickup_address) ∧
    payload.pickup_latitude = p.lat ∧
    payload.pickup_longitude = p.lng ∧
    payload.destination_address = f.destination_address ∧
    payload.passenger_count = jsParseInt f.passenger_count ∧
    payload.has_luggage = f.has_luggage := by
  simp [handleRideRequest] at h
  subst h
  refine ⟨fun he => by simp [he], fun he => by simp [he], rfl, rfl, rfl, rfl, rfl⟩

/-- Witness for C7 at a form with an empty pickup_address. -/
theorem rideRequest_payload_shape_witness :
    handleRideRequest rideFormExample (some riyadhDefault)
      = some { pickup_latitude := riyadhDefault.lat
               pickup_longitude := riyadhDefault.lng
               pickup_address := currentLocationSentinel
               destination_address := rideFormExample.destination_address
               passenger_count := jsParseInt rideFormExample.passenger_count
               has_luggage := rideFormExample.has_luggage } ∧
    (rideFormExample.pickup_address = "" →
      ({ pickup_latitude := riyadhDefault.lat
         pickup_longitude := riyadhDefault.lng
         pickup_address := currentLocationSentinel
         destination_address := rideFormExample.destination_address
         passenger_count := jsParseInt rideFormExample.passenger_count
         has_luggage := rideFormExample.has_luggage } : RidePayload).pickup_address
        = currentLocationSentinel) :=
  ⟨rfl, (rideRequest_payload_shape rideFormExample riyadhDefault _ rfl).1⟩

/-- C8: the startup geolocation effect issues at most one device position
request; success stores the device position, and both failure modes
(denial with the capability present, capability absent) fall back to the
single fixed default coordinate without issuing any further request. -/
theorem geolocation_one_shot_fallback (p : GeoPos) (b : Bool) (r : GeoResult) :
    geolocationStartup true (GeoResult.success p) = { requestsIssued := 1, position := p } ∧
    geolocationStartup true GeoResult.failure
      = { requestsIssued := 1, position := riyadhDefault } ∧
    geolocationStartup false r = { requestsIssued := 0, position := riyadhDefault } ∧
    (geolocationStartup b r).requestsIssued ≤ 1 := by
  refine ⟨rfl, rfl, rfl, ?_⟩
  cases b <;> simp [geolocationStartup]

/-- C9: logout discards the credential, the authorization header and the
profile, and immediately resets the nearby-taxi list to empty; the
position and alert slot are untouched. -/
theorem logout_resets_taxis_and_session (s : AppState) :
    (handleLogout s).nearbyTaxis = [] ∧
    (handleLogout s).user = none ∧
    (handleLogout s).token = none ∧
    (handleLogout s).authHeader = none ∧
    (handleLogout s).currentLocation = s.currentLocation ∧
    (handleLogout s).alert = s.alert :=
  ⟨rfl, rfl, rfl, rfl, rfl, rfl⟩

/-- C10: a failed customer-service-info fetch changes nothing at all — in
particular, starting from the initial state the info keeps its default
empty phone and message strings and no notification becomes visible. -/
theorem customerService_failure_silent (s : AppState) (e : HttpFailure) :
    fetchCustomerServiceInfo s (Except.error e) = s ∧
    initialAppState.customerServiceInfo = { phone := "", message := "" } ∧
    (fetchCustomerServiceInfo initialAppState (Except.error e)).customerServiceInfo
      = { phone := "", message := "" } ∧
    (fetchCustomerServiceInfo initialAppState (Except.error e)).alert.visible = false :=
  ⟨rfl, rfl, rfl, rfl⟩
